import Mathlib

/-!
Verification of the `smart_position` library (src/smart_position.ts).

The library chooses, per axis, one of five alignments for a floating element
relative to an anchor rectangle, then derives CSS offsets, max-size and a
translation from the choice.  We embed the numeric parts over `ℚ` (exact
arithmetic; the source uses JS numbers) and the string-level parts over
`String`.  Collaborator reads (element bounding boxes, viewport size,
containing-block probe results) become explicit parameters.
-/

namespace SmartPosition

/-- The closed alignment enumeration `'before'|'start'|'center'|'end'|'after'`
(`export type Alignment` in the source).  The TS value `'end'` is rendered as
`end_` because `end` is a Lean keyword. -/
inductive Alignment where
  | before
  | start
  | center
  | end_
  | after
deriving DecidableEq, Repr

/-- String form of an alignment token, as it appears in the TS source. -/
def Alignment.token : Alignment → String
  | .before => "before"
  | .start => "start"
  | .center => "center"
  | .end_ => "end"
  | .after => "after"

/-- `is_alignment(value)`: membership test against the five-token set
(src/smart_position.ts lines 2-10). -/
def is_alignment (value : String) : Bool :=
  value == "before"
  || value == "start"
  || value == "center"
  || value == "end"
  || value == "after"

/-- `validate_alignments(value)`: partitions the input into recognized and
unrecognized tokens, preserving order (src/smart_position.ts lines 18-26).
The TS loop pushes each element onto one of two arrays; we mirror it by
structural recursion on the input list. -/
def validate_alignments : List String → List String × List String
  | [] => ([], [])
  | v :: rest =>
    let r := validate_alignments rest
    if is_alignment v then (v :: r.1, r.2) else (r.1, v :: r.2)

/-- Axis-aligned rectangle; `right`/`bottom` are measured from the viewport's
left/top edges (DOMRect convention, per the source comment at lines 28-31). -/
structure Rect where
  top : ℚ
  bottom : ℚ
  left : ℚ
  right : ℚ
deriving DecidableEq, Repr

/-- `target_center_x = (target_rect.left + target_rect.right) / 2`
(src/smart_position.ts line 79). -/
def target_center_x (r : Rect) : ℚ := (r.left + r.right) / 2

/-- `target_center_y = (target_rect.top + target_rect.bottom) / 2`
(src/smart_position.ts line 80). -/
def target_center_y (r : Rect) : ℚ := (r.top + r.bottom) / 2

/-- `get_horizontal_space(alignment)` (src/smart_position.ts lines 109-126),
over the `Alignment` enumeration.  `window_width` and `margin` are the closure
variables of the source function. -/
def get_horizontal_space (target : Rect) (window_width margin : ℚ) : Alignment → ℚ
  | .before => target.left - 2*margin
  | .start => window_width - target.left - margin
  | .center => min (window_width - target_center_x target) (target_center_x target) * 2 - 2*margin
  | .end_ => target.right - margin
  | .after => window_width - target.right - 2*margin

/-- `get_vertical_space(alignment)` (src/smart_position.ts lines 127-144). -/
def get_vertical_space (target : Rect) (window_height margin : ℚ) : Alignment → ℚ
  | .before => target.top - 2*margin
  | .start => window_height - target.top - margin
  | .center => min (window_height - target_center_y target) (target_center_y target) * 2 - 2*margin
  | .end_ => target.bottom - margin
  | .after => window_height - target.bottom - 2*margin

/-- `get_horizontal_space` at the runtime (string) level: TS types are erased
at runtime, so the source's trailing
`throw new Error(\x7b...\x7d)` is reachable when a token outside the five-member
enumeration is passed.  The `if`-chain mirrors lines 110-125 of the source;
an unrecognized token yields `Except.error` (an uncaught throw). -/
def get_horizontal_space_str (target : Rect) (window_width margin : ℚ)
    (alignment : String) : Except String ℚ :=
  if alignment = "before" then .ok (target.left - 2*margin)
  else if alignment = "start" then .ok (window_width - target.left - margin)
  else if alignment = "center" then
    .ok (min (window_width - target_center_x target) (target_center_x target) * 2 - 2*margin)
  else if alignment = "end" then .ok (target.right - margin)
  else if alignment = "after" then .ok (window_width - target.right - 2*margin)
  else .error ("Invalid alignment: " ++ alignment)

/-- `get_vertical_space` at the runtime (string) level, mirroring lines
128-143 of the source including the trailing throw. -/
def get_vertical_space_str (target : Rect) (window_height margin : ℚ)
    (alignment : String) : Except String ℚ :=
  if alignment = "before" then .ok (target.top - 2*margin)
  else if alignment = "start" then .ok (window_height - target.top - margin)
  else if alignment = "center" then
    .ok (min (window_height - target_center_y target) (target_center_y target) * 2 - 2*margin)
  else if alignment = "end" then .ok (target.bottom - margin)
  else if alignment = "after" then .ok (window_height - target.bottom - 2*margin)
  else .error ("Invalid alignment: " ++ alignment)

/-- The per-axis selection loop shared by `horizontal_alignment`
(lines 152-162) and `vertical_alignment` (lines 181-191) of the source:
scan the preferences; return the first whose available space is at least the
element's current size; otherwise track the candidate with
`available_space > candidate_space` (strict), starting from the given
candidate and candidate space. -/
def resolve_loop (space : Alignment → ℚ) (size : ℚ) :
    List Alignment → Alignment → ℚ → Alignment
  | [], cand, _ => cand
  | a :: rest, cand, cand_space =>
    if size ≤ space a then a
    else if cand_space < space a then resolve_loop space size rest a (space a)
    else resolve_loop space size rest cand cand_space

/-- `horizontal_alignment` (src/smart_position.ts lines 147-165): the loop of
`resolve_loop` with initial candidate `horizontal_preferences[0] || 'start'`
and initial candidate space `0`.  `width` is
`element.getBoundingClientRect().width` at line 148. -/
def horizontal_alignment (target : Rect) (window_width margin : ℚ)
    (horizontal_preferences : List Alignment) (width : ℚ) : Alignment :=
  resolve_loop (get_horizontal_space target window_width margin) width
    horizontal_preferences (horizontal_preferences.headD .start) 0

/-- `vertical_alignment` (src/smart_position.ts lines 177-193): same loop with
initial candidate `vertical_preferences[0] || 'after'`.  `height` is
`element.getBoundingClientRect().height` at line 178, measured after the
max-width constraint is applied. -/
def vertical_alignment (target : Rect) (window_height margin : ℚ)
    (vertical_preferences : List Alignment) (height : ℚ) : Alignment :=
  resolve_loop (get_vertical_space target window_height margin) height
    vertical_preferences (vertical_preferences.headD .after) 0

/-- The element's final inline style as `smart_position` leaves it.  All four
offset fields were cleared before resolution (lines 87-93 of the source), so
a field is `none` exactly when the function did not set it.  The translation
components are recorded as fractions of the element's size:
`-50%` becomes `-(1/2)` and `'0'` becomes `0`. -/
structure Style where
  left : Option ℚ
  right : Option ℚ
  top : Option ℚ
  bottom : Option ℚ
  maxWidth : Option ℚ
  maxHeight : Option ℚ
  translate_x : ℚ
  translate_y : ℚ
deriving DecidableEq, Repr

/-- The offset/max-size/transform application phase of `smart_position`
(src/smart_position.ts lines 167-207) for already-chosen alignments:
the two `switch` statements, the two max-size writes, and the final
`translate`. -/
def position_style (target : Rect) (window_width window_height margin : ℚ)
    (container : Rect) (ha va : Alignment) : Style :=
  let lr : Option ℚ × Option ℚ :=
    match ha with
    | .before => (none, some (container.right - target.left + margin))
    | .start => (some (target.left - container.left), none)
    | .center => (some (target_center_x target - container.left), none)
    | .end_ => (none, some (container.right - target.right))
    | .after => (some (target.right + margin - container.left), none)
  let tb : Option ℚ × Option ℚ :=
    match va with
    | .before => (none, some (container.bottom - target.top + margin))
    | .start => (some (target.top - container.top), none)
    | .center => (some (target_center_y target - container.top), none)
    | .end_ => (none, some (container.bottom - target.bottom))
    | .after => (some (target.bottom + margin - container.top), none)
  { left := lr.1
    right := lr.2
    top := tb.1
    bottom := tb.2
    maxWidth := some (get_horizontal_space target window_width margin ha)
    maxHeight := some (get_vertical_space target window_height margin va)
    translate_x := if ha = .center then -(1/2 : ℚ) else 0
    translate_y := if va = .center then -(1/2 : ℚ) else 0 }

/-- `smart_position` (src/smart_position.ts lines 69-208) as a pure function
from its geometric inputs to the element's final style.  `container` holds the
containing-block bounds determined by the two probe measurements (lines
96-106); `width` and `height` are the element's measured intrinsic width and
its height after the max-width constraint (collaborator reads, lines 148 and
178). -/
def smart_position (target : Rect) (window_width window_height : ℚ)
    (container : Rect) (horizontal_preferences vertical_preferences : List Alignment)
    (margin width height : ℚ) : Style :=
  position_style target window_width window_height margin container
    (horizontal_alignment target window_width margin horizontal_preferences width)
    (vertical_alignment target window_height margin vertical_preferences height)

/-- Transcription of the horizontal column of the spec's section 4.2 table,
with `anchor.centerX = (anchor.left + anchor.right)/2` written out.  Used
only to compare against `get_horizontal_space`, which is translated from the
source. -/
def spec_horizontal_space (anchor : Rect) (viewport_width margin : ℚ) : Alignment → ℚ
  | .before => anchor.left - 2*margin
  | .start => viewport_width - anchor.left - margin
  | .center =>
    2 * min (viewport_width - (anchor.left + anchor.right)/2) ((anchor.left + anchor.right)/2)
      - 2*margin
  | .end_ => anchor.right - margin
  | .after => viewport_width - anchor.right - 2*margin

/-- Transcription of the vertical column of the spec's section 4.2 table,
with `anchor.centerY = (anchor.top + anchor.bottom)/2` written out. -/
def spec_vertical_space (anchor : Rect) (viewport_height margin : ℚ) : Alignment → ℚ
  | .before => anchor.top - 2*margin
  | .start => viewport_height - anchor.top - margin
  | .center =>
    2 * min (viewport_height - (anchor.top + anchor.bottom)/2) ((anchor.top + anchor.bottom)/2)
      - 2*margin
  | .end_ => anchor.bottom - margin
  | .after => viewport_height - anchor.bottom - 2*margin

lemma validate_alignments_eq_filter (l : List String) :
    validate_alignments l
      = (l.filter (fun v => is_alignment v), l.filter (fun v => !is_alignment v)) := by
  induction l with
  | nil => rfl
  | cons v rest ih =>
    by_cases h : is_alignment v <;>
      simp [validate_alignments, ih, List.filter_cons, h]

/-- C4: `validate_alignments` is total (never raises) and returns the ordered
partition of its input by `is_alignment`: every member of the first component
satisfies `is_alignment`, every member of the second does not, the lengths sum
to the input length, and each component is the subsequence of the input with
matching classification (order preserved, as each equals a `filter` of the
input). -/
theorem validate_alignments_partition (l : List String) :
    (validate_alignments l).1 = l.filter (fun v => is_alignment v)
    ∧ (validate_alignments l).2 = l.filter (fun v => !is_alignment v)
    ∧ (validate_alignments l).1.length + (validate_alignments l).2.length = l.length
    ∧ (∀ v ∈ (validate_alignments l).1, is_alignment v = true)
    ∧ (∀ v ∈ (validate_alignments l).2, is_alignment v = false) := by
  rw [validate_alignments_eq_filter]
  refine ⟨rfl, rfl, ?_, ?_, ?_⟩
  · exact (List.length_eq_length_filter_add (fun v => is_alignment v)).symm
  · intro v hv
    exact List.of_mem_filter hv
  · intro v hv
    simpa using List.of_mem_filter hv

/-- C3: for every anchor rect, viewport size and margin, the per-alignment
available-space functions of the source compute exactly the formula table of
the spec's section 4.2, on both axes. -/
theorem space_formula_table (anchor : Rect) (viewport_width viewport_height margin : ℚ)
    (a : Alignment) :
    get_horizontal_space anchor viewport_width margin a
      = spec_horizontal_space anchor viewport_width margin a
    ∧ get_vertical_space anchor viewport_height margin a
      = spec_vertical_space anchor viewport_height margin a := by
  cases a <;>
    simp [get_horizontal_space, spec_horizontal_space, get_vertical_space,
      spec_vertical_space, target_center_x, target_center_y, mul_comm]

/-- C5: at the runtime (string) level, passing a token outside the five-member
alignment enumeration to either space-computation function yields an uncaught
error (modelled as `Except.error`, which propagates), and passing any of the
five legal tokens yields a value, never an error. -/
theorem space_invalid_token_raises (target : Rect) (window_width window_height margin : ℚ)
    (s : String) :
    (is_alignment s = false →
      get_horizontal_space_str target window_width margin s
          = Except.error ("Invalid alignment: " ++ s)
        ∧ get_vertical_space_str target window_height margin s
          = Except.error ("Invalid alignment: " ++ s))
    ∧ (is_alignment s = true →
      (∃ q, get_horizontal_space_str target window_width margin s = Except.ok q)
        ∧ ∃ q, get_vertical_space_str target window_height margin s = Except.ok q) := by
  constructor
  · intro h
    simp only [is_alignment, Bool.or_eq_false_iff, beq_eq_false_iff_ne, ne_eq] at h
    obtain ⟨⟨⟨⟨h1, h2⟩, h3⟩, h4⟩, h5⟩ := h
    constructor <;>
      simp [get_horizontal_space_str, get_vertical_space_str, h1, h2, h3, h4, h5]
  · intro h
    simp only [is_alignment, Bool.or_eq_true, beq_iff_eq] at h
    rcases h with ((((h | h) | h) | h) | h) <;>
      subst h <;>
      exact ⟨⟨_, rfl⟩, _, rfl⟩

/-- Witness for C5 at concrete inputs: the token `'middle'` raises on both
axes, and the legal token `'center'` does not raise. -/
theorem space_invalid_token_raises_witness :
    (get_horizontal_space_str ⟨50, 50, 100, 150⟩ 800 0 "middle"
        = Except.error ("Invalid alignment: " ++ "middle")
      ∧ get_vertical_space_str ⟨50, 50, 100, 150⟩ 600 0 "middle"
        = Except.error ("Invalid alignment: " ++ "middle"))
    ∧ ((∃ q, get_horizontal_space_str ⟨50, 50, 100, 150⟩ 800 0 "center" = Except.ok q)
      ∧ ∃ q, get_vertical_space_str ⟨50, 50, 100, 150⟩ 600 0 "center" = Except.ok q) :=
  ⟨(space_invalid_token_raises ⟨50, 50, 100, 150⟩ 800 600 0 "middle").1 (by decide),
    (space_invalid_token_raises ⟨50, 50, 100, 150⟩ 800 600 0 "center").2 (by decide)⟩

lemma resolve_loop_first_fit (space : Alignment → ℚ) (size : ℚ) (l₂ : List Alignment)
    (a : Alignment) (h2 : size ≤ space a) :
    ∀ l₁, (∀ b ∈ l₁, space b < size) →
      ∀ cand cs, resolve_loop space size (l₁ ++ a :: l₂) cand cs = a := by
  intro l₁
  induction l₁ with
  | nil =>
    intro _ cand cs
    simp [resolve_loop, h2]
  | cons b t ih =>
    intro h1 cand cs
    have hb : ¬ size ≤ space b := not_le.mpr (h1 b (List.mem_cons_self b t))
    have ht : ∀ c ∈ t, space c < size := fun c hc => h1 c (List.mem_cons_of_mem b hc)
    simp only [List.cons_append, resolve_loop]
    rw [if_neg hb]
    split <;> exact ih ht _ _

lemma resolve_loop_const (space : Alignment → ℚ) (size : ℚ) :
    ∀ (l : List Alignment) (cand : Alignment) (cs : ℚ),
      (∀ b ∈ l, space b < size ∧ space b ≤ cs) →
      resolve_loop space size l cand cs = cand := by
  intro l
  induction l with
  | nil => intro cand cs _; rfl
  | cons b t ih =>
    intro cand cs h
    have hb := h b (List.mem_cons_self b t)
    simp only [resolve_loop]
    rw [if_neg (not_le.mpr hb.1), if_neg (not_lt.mpr hb.2)]
    exact ih cand cs fun c hc => h c (List.mem_cons_of_mem b hc)

lemma resolve_loop_max (space : Alignment → ℚ) (size : ℚ) (l₂ : List Alignment) (a : Alignment)
    (ha : space a < size) (hl₂ : ∀ b ∈ l₂, space b < size ∧ space b ≤ space a) :
    ∀ l₁, (∀ b ∈ l₁, space b < size ∧ space b < space a) →
      ∀ cand cs, cs < space a →
      resolve_loop space size (l₁ ++ a :: l₂) cand cs = a := by
  intro l₁
  induction l₁ with
  | nil =>
    intro _ cand cs hcs
    simp only [List.nil_append, resolve_loop]
    rw [if_neg (not_le.mpr ha), if_pos hcs]
    exact resolve_loop_const space size l₂ a (space a) hl₂
  | cons b t ih =>
    intro h1 cand cs hcs
    have hb := h1 b (List.mem_cons_self b t)
    have ht : ∀ c ∈ t, space c < size ∧ space c < space a :=
      fun c hc => h1 c (List.mem_cons_of_mem b hc)
    simp only [List.cons_append, resolve_loop]
    rw [if_neg (not_le.mpr hb.1)]
    split
    · exact ih ht b (space b) hb.2
    · exact ih ht cand cs hcs

lemma resolve_loop_mem (space : Alignment → ℚ) (size : ℚ) :
    ∀ (l : List Alignment) (cand : Alignment) (cs : ℚ),
      resolve_loop space size l cand cs = cand ∨ resolve_loop space size l cand cs ∈ l := by
  intro l
  induction l with
  | nil => intro cand cs; exact Or.inl rfl
  | cons b t ih =>
    intro cand cs
    simp only [resolve_loop]
    split
    · exact Or.inr (List.mem_cons_self b t)
    · split
      · rcases ih b (space b) with h | h
        · rw [h]
          exact Or.inr (List.mem_cons_self b t)
        · exact Or.inr (List.mem_cons_of_mem b h)
      · rcases ih cand cs with h | h
        · exact Or.inl h
        · exact Or.inr (List.mem_cons_of_mem b h)

/-- C2: on each axis, if some preference has available space at least the
element's size on that axis, the resolver selects the first such preference in
list order (here: the preference `a` after a prefix `l₁` of preferences whose
space is below the size), regardless of what the later preferences `l₂`
offer. -/
theorem first_fit_priority (target : Rect) (window_width window_height margin width height : ℚ)
    (l₁ l₂ m₁ m₂ : List Alignment) (a b : Alignment)
    (h1 : ∀ c ∈ l₁, get_horizontal_space target window_width margin c < width)
    (h2 : width ≤ get_horizontal_space target window_width margin a)
    (v1 : ∀ c ∈ m₁, get_vertical_space target window_height margin c < height)
    (v2 : height ≤ get_vertical_space target window_height margin b) :
    horizontal_alignment target window_width margin (l₁ ++ a :: l₂) width = a
    ∧ vertical_alignment target window_height margin (m₁ ++ b :: m₂) height = b :=
  ⟨resolve_loop_first_fit _ width l₂ a h2 l₁ h1 _ 0,
    resolve_loop_first_fit _ height m₂ b v2 m₁ v1 _ 0⟩

/-- Witness for C2: with anchor `⟨50, 50, 100, 150⟩`, viewport 800×600 and no
margin, `end` fits a width-100 element (space 150) and is chosen over the
later `after` even though `after` offers space 650; vertically the non-fitting
`before` (space 50) is skipped and the fitting `after` is chosen. -/
theorem first_fit_priority_witness :
    horizontal_alignment ⟨50, 50, 100, 150⟩ 800 0 [.end_, .after] 100 = .end_
    ∧ vertical_alignment ⟨50, 50, 100, 150⟩ 600 0 [.before, .after] 100 = .after :=
  first_fit_priority ⟨50, 50, 100, 150⟩ 800 600 0 100 100
    [] [.after] [.before] [] .end_ .after
    (by simp)
    (by norm_num [get_horizontal_space])
    (by intro c hc; fin_cases hc; norm_num [get_vertical_space])
    (by norm_num [get_vertical_space])

/-- Counterexample to C1 as stated: anchor `⟨0, 0, 0, 5⟩`, viewport width 800,
margin 10, preferences `[before, end]`, element width 100.  No preference
fits, `end` has strictly greater available space (−5) than `before` (−20),
yet the resolver returns `before` — because the fallback comparison starts
from a baseline candidate space of 0, which no all-nonpositive space beats. -/
theorem greedy_fallback_cex :
    get_horizontal_space ⟨0, 0, 0, 5⟩ 800 10 .before < 100
    ∧ get_horizontal_space ⟨0, 0, 0, 5⟩ 800 10 .end_ < 100
    ∧ get_horizontal_space ⟨0, 0, 0, 5⟩ 800 10 .before
        < get_horizontal_space ⟨0, 0, 0, 5⟩ 800 10 .end_
    ∧ horizontal_alignment ⟨0, 0, 0, 5⟩ 800 10 [.before, .end_] 100 = .before := by
  refine ⟨?_, ?_, ?_, ?_⟩ <;>
    norm_num [get_horizontal_space, horizontal_alignment, resolve_loop, List.headD]

/-- C1 (amended): on each axis, when no preference fits and some preference
has strictly positive available space, the resolver selects the earliest
preference attaining the maximum available space: here `a` (resp. `b`), whose
space is positive, strictly greater than every earlier preference's space and
at least every later preference's space.  (When every preference's space is
≤ 0 the first preference is selected instead; see the counterexample and
C10.) -/
theorem greedy_fallback_max (target : Rect) (window_width window_height margin width height : ℚ)
    (l₁ l₂ m₁ m₂ : List Alignment) (a b : Alignment)
    (h1 : ∀ c ∈ l₁ ++ a :: l₂, get_horizontal_space target window_width margin c < width)
    (h2 : 0 < get_horizontal_space target window_width margin a)
    (h3 : ∀ c ∈ l₁, get_horizontal_space target window_width margin c
        < get_horizontal_space target window_width margin a)
    (h4 : ∀ c ∈ l₂, get_horizontal_space target window_width margin c
        ≤ get_horizontal_space target window_width margin a)
    (v1 : ∀ c ∈ m₁ ++ b :: m₂, get_vertical_space target window_height margin c < height)
    (v2 : 0 < get_vertical_space target window_height margin b)
    (v3 : ∀ c ∈ m₁, get_vertical_space target window_height margin c
        < get_vertical_space target window_height margin b)
    (v4 : ∀ c ∈ m₂, get_vertical_space target window_height margin c
        ≤ get_vertical_space target window_height margin b) :
    horizontal_alignment target window_width margin (l₁ ++ a :: l₂) width = a
    ∧ vertical_alignment target window_height margin (m₁ ++ b :: m₂) height = b := by
  constructor
  · exact resolve_loop_max _ width l₂ a
      (h1 a (List.mem_append_right l₁ (List.mem_cons_self a l₂)))
      (fun c hc => ⟨h1 c (List.mem_append_right l₁ (List.mem_cons_of_mem a hc)), h4 c hc⟩)
      l₁ (fun c hc => ⟨h1 c (List.mem_append_left _ hc), h3 c hc⟩) _ 0 h2
  · exact resolve_loop_max _ height m₂ b
      (v1 b (List.mem_append_right m₁ (List.mem_cons_self b m₂)))
      (fun c hc => ⟨v1 c (List.mem_append_right m₁ (List.mem_cons_of_mem b hc)), v4 c hc⟩)
      m₁ (fun c hc => ⟨v1 c (List.mem_append_left _ hc), v3 c hc⟩) _ 0 v2

/-- Witness for the amended C1: anchor `⟨50, 50, 100, 150⟩`, viewport 800×600,
no margin, element size 1000×1000 (nothing fits).  Horizontally `before`
yields space 100 and `after` 650, so `after` is chosen; vertically `before`
yields 50 and `after` 550, so `after` is chosen. -/
theorem greedy_fallback_max_witness :
    horizontal_alignment ⟨50, 50, 100, 150⟩ 800 0 [.before, .after] 1000 = .after
    ∧ vertical_alignment ⟨50, 50, 100, 150⟩ 600 0 [.before, .after] 1000 = .after :=
  greedy_fallback_max ⟨50, 50, 100, 150⟩ 800 600 0 1000 1000
    [.before] [] [.before] [] .after .after
    (by intro c hc; fin_cases hc <;> norm_num [get_horizontal_space])
    (by norm_num [get_horizontal_space])
    (by intro c hc; fin_cases hc; norm_num [get_horizontal_space])
    (by simp)
    (by intro c hc; fin_cases hc <;> norm_num [get_vertical_space])
    (by norm_num [get_vertical_space])
    (by intro c hc; simp only [List.mem_singleton] at hc; subst hc
        norm_num [get_vertical_space])
    (by simp)

/-- C10: on each axis, if the preference list is non-empty, the element's size
on that axis is positive and every preference's available space is ≤ 0, the
resolver returns the first preference of the list — even when a later
preference has strictly greater (less negative) space — because the fallback
comparison starts from a baseline of 0 that no preference beats. -/
theorem nonpositive_space_first_preference (target : Rect)
    (window_width window_height margin width height : ℚ)
    (a b : Alignment) (l m : List Alignment)
    (hw : 0 < width)
    (h1 : ∀ c ∈ a :: l, get_horizontal_space target window_width margin c ≤ 0)
    (hh : 0 < height)
    (v1 : ∀ c ∈ b :: m, get_vertical_space target window_height margin c ≤ 0) :
    horizontal_alignment target window_width margin (a :: l) width = a
    ∧ vertical_alignment target window_height margin (b :: m) height = b := by
  constructor
  · exact resolve_loop_const _ width (a :: l) _ 0
      fun c hc => ⟨lt_of_le_of_lt (h1 c hc) hw, h1 c hc⟩
  · exact resolve_loop_const _ height (b :: m) _ 0
      fun c hc => ⟨lt_of_le_of_lt (v1 c hc) hh, v1 c hc⟩

/-- Witness for C10: anchor strip `⟨0, 0, 0, 5⟩` with margin 10 in an 800×600
viewport gives spaces −20 (`before`) and −5 / −10 (`end`) on the two axes;
with preferences `[before, end]` the resolver returns `before` on both axes
although `end` has strictly greater space. -/
theorem nonpositive_space_first_preference_witness :
    horizontal_alignment ⟨0, 0, 0, 5⟩ 800 10 [.before, .end_] 100 = .before
    ∧ vertical_alignment ⟨0, 0, 0, 5⟩ 600 10 [.before, .end_] 100 = .before :=
  nonpositive_space_first_preference ⟨0, 0, 0, 5⟩ 800 600 10 100 100
    .before .before [.end_] [.end_] (by norm_num)
    (by intro c hc; fin_cases hc <;> norm_num [get_horizontal_space])
    (by norm_num)
    (by intro c hc; fin_cases hc <;> norm_num [get_vertical_space])

/-- C6: each axis resolver always returns exactly one alignment; it is a
member of the preference list when the list is non-empty, and the fixed
default (`start` horizontally, `after` vertically) when the list is empty. -/
theorem chosen_alignment_sound (target : Rect)
    (window_width window_height margin width height : ℚ)
    (hprefs vprefs : List Alignment) :
    (hprefs ≠ [] → horizontal_alignment target window_width margin hprefs width ∈ hprefs)
    ∧ (hprefs = [] → horizontal_alignment target window_width margin hprefs width = .start)
    ∧ (vprefs ≠ [] → vertical_alignment target window_height margin vprefs height ∈ vprefs)
    ∧ (vprefs = [] → vertical_alignment target window_height margin vprefs height = .after) := by
  refine ⟨?_, ?_, ?_, ?_⟩
  · intro hne
    cases hprefs with
    | nil => exact absurd rfl hne
    | cons a t =>
      rcases resolve_loop_mem (get_horizontal_space target window_width margin) width
          (a :: t) ((a :: t).headD .start) 0 with h | h
      · rw [horizontal_alignment, h]
        exact List.mem_cons_self a t
      · exact h
  · intro he
    subst he
    rfl
  · intro hne
    cases vprefs with
    | nil => exact absurd rfl hne
    | cons b t =>
      rcases resolve_loop_mem (get_vertical_space target window_height margin) height
          (b :: t) ((b :: t).headD .after) 0 with h | h
      · rw [vertical_alignment, h]
        exact List.mem_cons_self b t
      · exact h
  · intro he
    subst he
    rfl

/-- Witness for C6: with a singleton horizontal list the chosen horizontal
alignment is its member; with an empty vertical list the default `after` is
chosen. -/
theorem chosen_alignment_sound_witness :
    horizontal_alignment ⟨50, 50, 100, 150⟩ 800 0 [.center] 100 ∈ [Alignment.center]
    ∧ vertical_alignment ⟨50, 50, 100, 150⟩ 600 0 [] 100 = .after :=
  ⟨(chosen_alignment_sound ⟨50, 50, 100, 150⟩ 800 600 0 100 100 [.center] []).1 (by simp),
    (chosen_alignment_sound ⟨50, 50, 100, 150⟩ 800 600 0 100 100 [.center] []).2.2.2 rfl⟩

lemma position_style_sides (target : Rect) (window_width window_height margin : ℚ)
    (container : Rect) (ha va : Alignment) :
    ((position_style target window_width window_height margin container ha va).left.isSome
      = !(position_style target window_width window_height margin container ha va).right.isSome)
    ∧ ((position_style target window_width window_height margin container ha va).top.isSome
      = !(position_style target window_width window_height margin container ha va).bottom.isSome) := by
  cases ha <;> cases va <;> simp [position_style]

/-- C7: the offsets `smart_position` sets are exactly the section 4.4 formulas
for the chosen alignments (with `anchor.centerX = (anchor.left + anchor.right)/2`
written out and the unset side of each axis `none`), max-width is the
available space of the chosen horizontal alignment, and max-height the
available space of the chosen vertical alignment. -/
theorem offset_and_max_size_table (target : Rect) (window_width window_height : ℚ)
    (container : Rect) (hprefs vprefs : List Alignment) (margin width height : ℚ) :
    ((smart_position target window_width window_height container hprefs vprefs
        margin width height).left,
      (smart_position target window_width window_height container hprefs vprefs
        margin width height).right)
      = (match horizontal_alignment target window_width margin hprefs width with
        | .before => (none, some (container.right - target.left + margin))
        | .start => (some (target.left - container.left), none)
        | .center => (some ((target.left + target.right)/2 - container.left), none)
        | .end_ => (none, some (container.right - target.right))
        | .after => (some (target.right + margin - container.left), none))
    ∧ ((smart_position target window_width window_height container hprefs vprefs
        margin width height).top,
      (smart_position target window_width window_height container hprefs vprefs
        margin width height).bottom)
      = (match vertical_alignment target window_height margin vprefs height with
        | .before => (none, some (container.bottom - target.top + margin))
        | .start => (some (target.top - container.top), none)
        | .center => (some ((target.top + target.bottom)/2 - container.top), none)
        | .end_ => (none, some (container.bottom - target.bottom))
        | .after => (some (target.bottom + margin - container.top), none))
    ∧ (smart_position target window_width window_height container hprefs vprefs
        margin width height).maxWidth
      = some (get_horizontal_space target window_width margin
          (horizontal_alignment target window_width margin hprefs width))
    ∧ (smart_position target window_width window_height container hprefs vprefs
        margin width height).maxHeight
      = some (get_vertical_space target window_height margin
          (vertical_alignment target window_height margin vprefs height)) := by
  simp only [smart_position]
  cases horizontal_alignment target window_width margin hprefs width <;>
    cases vertical_alignment target window_height margin vprefs height <;>
      simp [position_style, target_center_x, target_center_y]

/-- C8: the translation has horizontal component −50% (here the fraction
−1/2) exactly when the chosen horizontal alignment is `center` and 0
otherwise, and the analogous property holds vertically. -/
theorem translate_center_coupling (target : Rect) (window_width window_height : ℚ)
    (container : Rect) (hprefs vprefs : List Alignment) (margin width height : ℚ) :
    ((smart_position target window_width window_height container hprefs vprefs
        margin width height).translate_x = -(1/2)
      ↔ horizontal_alignment target window_width margin hprefs width = .center)
    ∧ ((smart_position target window_width window_height container hprefs vprefs
        margin width height).translate_x = 0
      ↔ ¬ horizontal_alignment target window_width margin hprefs width = .center)
    ∧ ((smart_position target window_width window_height container hprefs vprefs
        margin width height).translate_y = -(1/2)
      ↔ vertical_alignment target window_height margin vprefs height = .center)
    ∧ ((smart_position target window_width window_height container hprefs vprefs
        margin width height).translate_y = 0
      ↔ ¬ vertical_alignment target window_height margin vprefs height = .center) := by
  simp only [smart_position]
  cases horizontal_alignment target window_width margin hprefs width <;>
    cases vertical_alignment target window_height margin vprefs height <;>
      norm_num [position_style]

/-- C9: after `smart_position` completes, exactly one of the `left`/`right`
offsets is set and exactly one of the `top`/`bottom` offsets is set; the
other side of each axis remains cleared (`none`). -/
theorem one_side_per_axis (target : Rect) (window_width window_height : ℚ)
    (container : Rect) (hprefs vprefs : List Alignment) (margin width height : ℚ) :
    ((smart_position target window_width window_height container hprefs vprefs
        margin width height).left.isSome
      = !(smart_position target window_width window_height container hprefs vprefs
        margin width height).right.isSome)
    ∧ ((smart_position target window_width window_height container hprefs vprefs
        margin width height).top.isSome
      = !(smart_position target window_width window_height container hprefs vprefs
        margin width height).bottom.isSome) := by
  simp only [smart_position]
  exact position_style_sides target window_width window_height margin container
    (horizontal_alignment target window_width margin hprefs width)
    (vertical_alignment target window_height margin vprefs height)

end SmartPosition
